import Mathlib

/-!
# Verification of the GigiP2Bot conversational trading engine

A shallow embedding of `src/api/bot.py` (the only source file of the
repository `Gigixdeborah/gigi-telegram-bot`).

Modelling conventions, shared by all definitions below:

* Python `float` values (amounts, rates, fiat values) are modelled as `ℚ`.
  Timestamps (`datetime.now().timestamp()`) are modelled as `ℤ` seconds.
* External effects are passed in explicitly:
  - the Bybit spot-price HTTP endpoint is an oracle `upstream : Nat → Option ℚ`
    giving the outcome of the n-th upstream HTTP request (`none` = any
    exception / non-zero `retCode` / parse failure);
  - the recipient-registry HTTP endpoint is a value
    `live : Except Unit RecipientResp` (`.error ()` = any raised exception);
  - `InlineKeyboardMarkup` rendering (done by the telegram library when the
    object is interpolated into an f-string) is an abstract
    `render : List (List (String × String)) → String` over (label, url-or-callback)
    button rows;
  - `asyncio.sleep(1)` advances the modelled clock by one second.
* Python truthiness is modelled by the `pyTruthy*` helpers (for strings both
  `None` and `""` are falsy; for floats both `None` and `0.0`).
* The spaCy pipeline `nlp(...)` is external: a message is accompanied by its
  token list `doc : List Tok`, each token carrying its text (lower-cased, as
  the source lower-cases before tokenizing) and spaCy's `like_num` flag.
  `float(...)` applied to token texts / typed amounts is modelled by
  `floatParse`, covering unsigned decimal literals (the only shapes produced
  by the dialogues considered here).
* The per-user dict `conversation_context[user_id]` together with
  `get_context` / `update_context` is modelled by passing the current `Ctx`
  in and returning the updated one.  Python's `data` dict is aliased into the
  stored context, so in-place mutations of `data` persist even on code paths
  that return without calling `update_context`; the embedding reproduces this
  by returning the mutated slot record on those paths.  A slot key that is
  absent and a slot key stored as `None` are both modelled as `Option.none`
  (no code path relevant to the claims distinguishes them).
* `detect_sentiment` only selects among canned greeting/thanks/exit reply
  lists; those three intent branches crash at runtime anyway (the source uses
  `random.choice` without importing `random`), so the sentiment classifier is
  not embedded and those branches return a `NameError` marker reply while
  performing exactly the context updates the source performs before the
  crashing expression is evaluated.  Similarly the `balance` branch calls
  `fetch_ton_balance`, which is defined nowhere in the source: it raises
  `NameError` before any context update, so the context is left unchanged.
* `notify_admin` (a fire-and-forget HTTP POST) and the database/Redis wiring
  are external side effects with no influence on replies or dialogue state
  and are not modelled.
-/

namespace Gigi

/-! ## Basic helpers: Python truthiness, `float()`, string formatting -/

/-- Python truthiness of an optional string (`None` and `""` are falsy). -/
def pyTruthyStr : Option String → Bool
  | none => false
  | some s => !(s == "")

/-- Python truthiness of an optional float (`None` and `0.0` are falsy). -/
def pyTruthyQ : Option ℚ → Bool
  | none => false
  | some q => decide (q ≠ 0)

/-- Python `a or b` where `a` is an optional string and `b` a string. -/
def pyOrStr (a : Option String) (b : String) : String :=
  if pyTruthyStr a then a.getD "" else b

/-- Python `a or b` on two optional strings. -/
def pyOrOptStr (a b : Option String) : Option String :=
  if pyTruthyStr a then a else b

/-- Numeric value of a list of decimal digit characters. -/
def digitsToNat (cs : List Char) : Nat :=
  cs.foldl (fun n c => 10 * n + (c.toNat - 48)) 0

/-- Split a character list on `'.'` (used to parse decimal literals). -/
def splitOnDot : List Char → List (List Char)
  | [] => [[]]
  | c :: rest =>
    match splitOnDot rest with
    | h :: t => if c = '.' then [] :: h :: t else (c :: h) :: t
    | [] => [[c]]

/-- Model of Python `float(s)` restricted to unsigned decimal literals
(`"100"`, `"1.5"`, `"5."`, `".5"`); every other string raises `ValueError`,
modelled as `none`.  All strings fed to `float` on the code paths analysed
here are of this shape. -/
def floatParse (s : String) : Option ℚ :=
  match splitOnDot s.data with
  | [ip] =>
    if ip ≠ [] ∧ ip.all Char.isDigit then some ((digitsToNat ip : ℚ)) else none
  | [ip, fp] =>
    if (ip ≠ [] ∨ fp ≠ []) ∧ ip.all Char.isDigit ∧ fp.all Char.isDigit then
      some ((digitsToNat ip : ℚ) + (digitsToNat fp : ℚ) / (10 : ℚ) ^ fp.length)
    else none
  | _ => none

/-- Left-pad a numeral string with zeros to length `k`. -/
def natPad (s : String) (k : Nat) : String :=
  if s.length ≥ k then s else String.mk (List.replicate (k - s.length) '0') ++ s

/-- Model of Python `repr`/f-string rendering of a nonnegative finite-decimal
float (`f"{50.0}"` is `"50.0"`, `f"{1.5}"` is `"1.5"`). -/
def pyFloatStr (q : ℚ) : String :=
  if q.den = 1 then toString q.num ++ ".0"
  else
    match (List.range 17).find? (fun k => (q * (10 : ℚ) ^ (k + 1)).den = 1) with
    | some k =>
      let digits := k + 1
      let m := (q * (10 : ℚ) ^ digits).num.toNat
      toString (m / 10 ^ digits) ++ "." ++ natPad (toString (m % 10 ^ digits)) digits
    | none => toString q.num ++ "/" ++ toString q.den

/-- Model of the Python format `f"{q:.2f}"` for nonnegative `q`: round to two
decimal places and render with exactly two fractional digits. -/
def fmt2 (q : ℚ) : String :=
  let n := ((q * 100 + 1 / 2 : ℚ).floor).toNat
  toString (n / 100) ++ "." ++ natPad (toString (n % 100)) 2

/-- ASCII upper-casing of one character (model of `str.upper` per character;
all strings upper-cased by the source are ASCII). -/
def upChar (c : Char) : Char :=
  if 'a' ≤ c ∧ c ≤ 'z' then Char.ofNat (c.toNat - 32) else c

/-- Model of Python `str.upper()` (ASCII). -/
def strUpper (s : String) : String := String.mk (s.data.map upChar)

/-- ASCII lower-casing of one character. -/
def lowChar (c : Char) : Char :=
  if 'A' ≤ c ∧ c ≤ 'Z' then Char.ofNat (c.toNat + 32) else c

/-- Model of Python `str.lower()` (ASCII; all token symbols are ASCII). -/
def strLower (s : String) : String := String.mk (s.data.map lowChar)

/-- Whitespace test used by `strTrim`. -/
def isWs (c : Char) : Bool := c == ' ' || c == '\t' || c == '\n' || c == '\r'

/-- Model of Python `str.strip()`. -/
def strTrim (s : String) : String :=
  String.mk (((s.data.dropWhile isWs).reverse.dropWhile isWs).reverse)

/-- Model of Python `str.capitalize()` restricted to upper-casing the first
character (the source only applies it to lower-case action words). -/
def strCapitalize (s : String) : String :=
  match s.data with
  | [] => ""
  | c :: cs => String.mk (upChar c :: cs)

/-- Model of Python `", ".join(l)` (and joins generally). -/
def strJoin (sep : String) : List String → String
  | [] => ""
  | [x] => x
  | x :: xs => x ++ sep ++ strJoin sep xs

/-- Last `n` elements of a list (Python `l[-n:]`). -/
def lastN (n : Nat) (l : List String) : List String := l.drop (l.length - n)

/-! ## Rate limiter (`rate_limit`, bot.py lines 96-104)

Redis state for one `rate_limit:{user_id}:{ip}` key is the sorted set of
recorded timestamps; since every member is `str(now)` with score `now`,
the set is modelled as a `List ℤ` of scores (adding an already-present
score is a no-op, as `ZADD` just rewrites the same member). -/

/-- `pipe.zremrangebyscore(key, 0, now - 60)`: drop scores in `[0, now-60]`. -/
def zremOld (now : ℤ) (s : List ℤ) : List ℤ :=
  s.filter (fun t => !(decide (0 ≤ t) && decide (t ≤ now - 60)))

/-- `pipe.zadd(key, {str(now): now})` on the score-set model. -/
def zaddNow (now : ℤ) (s : List ℤ) : List ℤ :=
  if now ∈ s then s else s ++ [now]

/-- `pipe.zrangebyscore(key, now - 60, now)` result size. -/
def windowCount (now : ℤ) (s : List ℤ) : Nat :=
  (s.filter (fun t => decide (now - 60 ≤ t) && decide (t ≤ now))).length

/-- `rate_limit`: prune old timestamps, record the current one
(unconditionally), then admit iff fewer than 10 timestamps fall in the
trailing 60-second window.  Returns the admission verdict and the new
per-key state. -/
def rate_limit (now : ℤ) (s : List ℤ) : Bool × List ℤ :=
  let s1 := zaddNow now (zremOld now s)
  (decide (windowCount now s1 < 10), s1)

/-- Fold `rate_limit` over a list of call timestamps, collecting verdicts. -/
def runCalls (s : List ℤ) (times : List ℤ) : List Bool × List ℤ :=
  times.foldl (fun acc t =>
    let r := rate_limit t acc.2
    (acc.1 ++ [r.1], r.2)) ([], s)

/-! ## Quote service (`fetch_crypto_rates_bybit`, `fetch_rate_with_retry`,
bot.py lines 170-188 and 211-218)

Per-symbol state: the Redis cache entry `rate:{token}` (value and absolute
expiry instant, set by `setex(cache_key, 60, rate)`) plus a counter of
upstream HTTP requests issued so far (used to index the `upstream` oracle
and to state "exactly n upstream calls"). -/

structure QuoteState where
  /-- Cached rate and its expiry instant, if a cache entry exists. -/
  cache : Option (ℚ × ℤ)
  /-- Number of upstream HTTP requests issued so far. -/
  calls : Nat
deriving DecidableEq

/-- `fetch_crypto_rates_bybit`: serve from cache when the entry is unexpired;
otherwise issue one upstream request, caching for 60 seconds on success and
returning `none` (never raising) on any failure. -/
def fetch_crypto_rates_bybit (upstream : Nat → Option ℚ) (now : ℤ)
    (s : QuoteState) : Option ℚ × QuoteState :=
  let hit : Option ℚ :=
    match s.cache with
    | some (v, exp) => if now < exp then some v else none
    | none => none
  match hit with
  | some v => (some v, s)
  | none =>
    match upstream s.calls with
    | some rate => (some rate, ⟨some (rate, now + 60), s.calls + 1⟩)
    | none => (none, { s with calls := s.calls + 1 })

/-- `fetch_rate_with_retry`: up to `retries` attempts, sleeping one second
after each failed attempt (also after the last one, as in the source), and
returning `none` after exhausting the budget.  The returned `ℤ` is the clock
after the call, exposing the inter-attempt delays. -/
def fetch_rate_with_retry (upstream : Nat → Option ℚ) :
    Nat → ℤ → QuoteState → Option ℚ × QuoteState × ℤ
  | 0, now, s => (none, s, now)
  | n + 1, now, s =>
    match fetch_crypto_rates_bybit upstream now s with
    | (some r, s1) => (some r, s1, now)
    | (none, s1) => fetch_rate_with_retry upstream n (now + 1) s1

/-! ## Address resolver (`fetch_recipient_address`, bot.py lines 190-202,
with the `FALLBACK_ADDRESSES` table of lines 48-66; the table values are the
hard-coded defaults, no overriding environment variables being set). -/

def FALLBACK_ADDRESSES : List (String × String) :=
  [("TON", "UQCMbQomO3XD1FSt7pyfjqj2jBRzyg23myKDtCky_CedKpEH"),
   ("BTC", "15v6V97KZh3NDgPWjwbQBp4PWPRgf7uQRf"),
   ("ETH", "0x4fb9055c71a3cafd7c6d30686cfe55282a11ac5e"),
   ("USDT_ERC20", "0x4fb9055c71a3cafd7c6d30686cfe55282a11ac5e"),
   ("USDT_TON", "UQCMbQomO3XD1FSt7pyfjqj2jBRzyg23myKDtCky_CedKpEH"),
   ("USDT_TRC20", "TBNQW6J9hkoamhs7oYXVmGf3LBKbs1ZiUd"),
   ("SOL", "CdkLzLG3uTwA7HqNGZ3CC4fTc4EwjGJWaTGNjmTRpu7Z"),
   ("BNB", "0x4fb9055c71a3cafd7c6d30686cfe55282a11ac5e"),
   ("MATIC", "0x4fb9055c71a3cafd7c6d30686cfe55282a11ac5e"),
   ("USDC", "0x4fb9055c71a3cafd7c6d30686cfe55282a11ac5e"),
   ("TRX", "TBNQW6J9hkoamhs7oYXVmGf3LBKbs1ZiUd"),
   ("SHIB", "0x4fb9055c71a3cafd7c6d30686cfe55282a11ac5e"),
   ("XRP", "rJn2zAPdFA193sixJwuFixRkYDUtx3apQh"),
   ("ADA", "addr1v8hpde5xvxux8vn5x4fnr94qvd7e95pl0lr7770w3kds60cu52cc7"),
   ("DOT", "15tcNR3ypYpYSFdqxzoPJVhdfHq221D6qesSpRc5pdmhiG39"),
   ("AVAX", "0x4fb9055c71a3cafd7c6d30686cfe55282a11ac5e"),
   ("DOGE", "DAUpMXucfetrJhzrW9LRFxTo22BzqnVg8E")]

def FALLBACK_XRP_TAG : String := "501173063"

/-- The JSON body of a successful recipient-registry response: the fields the
source reads via `data.get("address")` / `data.get("tag")`. -/
structure RecipientResp where
  address : Option String := none
  tag : Option String := none
deriving DecidableEq

/-- `key = f"USDT_{network}" if token == "USDT" and network else token`. -/
def recipKey (token : String) (network : Option String) : String :=
  match network with
  | some n => if token == "USDT" && !(n == "") then "USDT_" ++ n else token
  | none => token

/-- `fetch_recipient_address`: live lookup with static fallback.  On success
the live address is used when truthy, else the fallback table entry for the
token/network key, else the literal `"default_recipient"`; a tag is only ever
propagated for XRP, defaulting to `FALLBACK_XRP_TAG`.  On any raised error
the fallback path of the `except` block is taken. -/
def fetch_recipient_address (token : String) (network : Option String)
    (live : Except Unit RecipientResp) : String × Option String :=
  let key := recipKey token network
  match live with
  | .ok data =>
    let address := data.address
    let tag := if token == "XRP" then data.tag else none
    (pyOrStr address ((FALLBACK_ADDRESSES.lookup key).getD "default_recipient"),
     pyOrOptStr tag (if token == "XRP" then some FALLBACK_XRP_TAG else none))
  | .error _ =>
    ((FALLBACK_ADDRESSES.lookup key).getD "default_recipient",
     if token == "XRP" then some FALLBACK_XRP_TAG else none)

/-! ## Intent & entity extraction (`SYNONYMS`, `SUPPORTED_TOKENS`,
`detect_intent_and_entities`, bot.py lines 82-87, 143-157, 221-237) -/

/-- A value of the `SUPPORTED_TOKENS` dict: either a single chain name or
(for USDT) the list of its networks. -/
inductive NetInfo where
  | one (chain : String)
  | many (chains : List String)
deriving DecidableEq, BEq

def SUPPORTED_TOKENS : List (String × NetInfo) :=
  [("BTC", .one "BTC"), ("ETH", .one "EVM"),
   ("USDT", .many ["ERC20", "TRC20", "TON"]), ("TON", .one "TON"),
   ("SOL", .one "Solana"), ("BNB", .one "BSC"), ("MATIC", .one "Polygon"),
   ("USDC", .one "EVM"), ("TRX", .one "TRON"), ("SHIB", .one "EVM"),
   ("XRP", .one "XRP"), ("ADA", .one "Cardano"), ("DOT", .one "Polkadot"),
   ("AVAX", .one "Avalanche"), ("DOGE", .one "Dogecoin")]

def SUPPORTED_TOKENS_LOWER : List (String × String) :=
  SUPPORTED_TOKENS.map (fun p => (strLower p.1, p.1))

/-- `SUPPORTED_TOKENS.get(token, "TON")`. -/
def tokensGetD (t : String) : NetInfo :=
  (SUPPORTED_TOKENS.lookup t).getD (.one "TON")

/-- The ordered intent synonym table.  The dict iteration order of the source
is preserved; `first match wins`. -/
def SYNONYMS : List (String × List String) :=
  [("buy", ["purchase", "grab", "get", "want", "need", "acquire", "buying"]),
   ("sell", ["sell", "cash", "unload", "offload", "trade", "dispose", "selling", "cash out"]),
   ("connect_wallet", ["connect", "link", "setup", "attach"]),
   ("balance", ["check", "how much", "show", "what\x27s", "funds", "money"]),
   ("help", ["support", "guide", "what can", "how to", "assist"]),
   ("price", ["rate", "value", "cost", "worth", "how much is"]),
   ("chart", ["graph", "trend", "show me", "visualize"]),
   ("greeting", ["hi", "hello", "hey", "greetings", "what\x27s up"]),
   ("thanks", ["thanks", "thank you", "appreciate", "great"]),
   ("exit", ["bye", "exit", "quit", "done", "later"]),
   ("about", ["how are you", "what are you", "who are you"]),
   ("time", ["what time", "current time", "time now"]),
   ("cancel", ["cancel", "stop", "abort", "nevermind"])]

/-- One spaCy token of the lower-cased input: its text and `like_num` flag. -/
structure Tok where
  text : String
  likeNum : Bool
deriving DecidableEq

/-- The `entities` dict. -/
structure Entities where
  token : Option String := none
  amount : Option ℚ := none
  network : Option String := none
deriving DecidableEq

/-- One iteration of the entity loop of `detect_intent_and_entities`.  When
`like_num` holds but `float(...)` raises, the `continue` skips the token and
network checks for that token as well. -/
def entityStep (e : Entities) (t : Tok) : Entities :=
  if t.likeNum && (floatParse t.text).isNone then e
  else
    let e1 := if t.likeNum then { e with amount := floatParse t.text } else e
    let e2 :=
      match SUPPORTED_TOKENS_LOWER.lookup t.text with
      | some sym => { e1 with token := some sym }
      | none => e1
    if (t.text == "erc20" || t.text == "trc20" || t.text == "ton")
        && e2.token == some "USDT" then
      { e2 with network := some (strUpper t.text) }
    else e2

/-- `detect_intent_and_entities`: fold the entity loop over the token list,
then classify as the first intent whose synonym set contains some token text,
falling back to `"conversation"`. -/
def detect_intent_and_entities (doc : List Tok) : String × Entities :=
  let entities := doc.foldl entityStep {}
  match SYNONYMS.find? (fun p => doc.any (fun t => p.2.contains t.text)) with
  | some p => (p.1, entities)
  | none => ("conversation", entities)

/-! ## Dialogue state machine (`handle_conversation`, bot.py lines 240-541) -/

/-- The conversation states stored in `context["state"]`; Python's `None`
("idle") is `Option.none` around this type. -/
inductive ConvState where
  | awaiting_token_buy | awaiting_network_buy | awaiting_amount_buy | confirm_buy
  | awaiting_token_sell | awaiting_network_sell | awaiting_amount_sell | confirm_sell
deriving DecidableEq

/-- One user's `conversation_context` entry. -/
structure Ctx where
  state : Option ConvState := none
  data : Entities := {}
  history : List String := []
deriving DecidableEq

/-- Result of one `handle_conversation` turn: the reply text, the context
stored for the user, and the quote-service state and clock after the turn. -/
structure HandleResult where
  reply : String
  ctx : Ctx
  qs : QuoteState
  now : ℤ
deriving DecidableEq

def TWA_BASE_URL : String := "https://gigi-wallet-signing.onrender.com"

/-- The USDT network-selection keyboard (`buy` and `sell` variants). -/
def usdtKeyboard (intent : String) : List (List (String × String)) :=
  [[("USDT (ERC20)", "network_erc20_" ++ intent),
    ("USDT (TRC20)", "network_trc20_" ++ intent)],
   [("USDT (TON)", "network_ton_" ++ intent)]]

/-- `handle_conversation`.  `user_id`, the quote-service state `qs`, the
clock `now` and the external oracles are threaded explicitly; `message` is
the raw text (`text = message.strip()`), `doc` its spaCy tokenization.

On `data["token"]` reads the source would raise `KeyError` if the slot were
missing; no reachable-state path relevant to the claims has it missing, and
the embedding reads the slot with `""` as the (unreachable) default. -/
def handle_conversation (upstream : Nat → Option ℚ)
    (live : Except Unit RecipientResp)
    (render : List (List (String × String)) → String)
    (user_id : ℤ) (now : ℤ) (qs : QuoteState)
    (ctx : Ctx) (message : String) (doc : List Tok) : HandleResult :=
  let data := ctx.data
  let history := ctx.history
  let text := strTrim message
  match ctx.state with
  | some .awaiting_token_buy =>
    let token := strUpper text
    if (SUPPORTED_TOKENS.lookup token).isNone then
      ⟨"Hmm, I don’t recognize that token! Try TON, USDT, BTC, etc. What token would you like?",
       ctx, qs, now⟩
    else
      let data := { data with token := some token }
      if token == "USDT" then
        ⟨"USDT, nice! Which network? " ++ render (usdtKeyboard "buy"),
         ⟨some .awaiting_network_buy, data, history ++ ["buy"]⟩, qs, now⟩
      else
        ⟨"Nice pick! How much " ++ token ++ " would you like to buy? (e.g., 1.5)",
         ⟨some .awaiting_amount_buy, data, history ++ ["buy"]⟩, qs, now⟩
  | some .awaiting_network_buy =>
    let network := data.network.getD (strUpper text)
    let data := { data with network := some network }
    ⟨"Got it, USDT on " ++ network ++ "! How much would you like to buy? (e.g., 1.5)",
     ⟨some .awaiting_amount_buy, data, history ++ ["buy_network"]⟩, qs, now⟩
  | some .awaiting_amount_buy =>
    match floatParse text with
    | none =>
      ⟨"Oops, that didn’t look like a number! How much would you like to buy?", ctx, qs, now⟩
    | some amount =>
      if amount ≤ 0 then
        ⟨"Whoa, let’s keep it positive! How much would you like to buy?", ctx, qs, now⟩
      else
        let data := { data with amount := some amount }
        let token := data.token.getD ""
        let rr := fetch_rate_with_retry upstream 3 now qs
        if rr.1.getD 0 == 0 then
          ⟨"Oops, couldn’t fetch the rate for that token! Try another?",
           { ctx with data := data }, rr.2.1, rr.2.2⟩
        else
          let r := rr.1.getD 0
          let fiat_amount := amount * r + 15 / 100
          let network := data.network
          let resolved := fetch_recipient_address token network live
          let recipient_address := resolved.1
          let tag := resolved.2
          let url := TWA_BASE_URL ++ "/sign.html?user_id=" ++ toString user_id
            ++ "&amount=" ++ pyFloatStr amount ++ "&to=" ++ recipient_address
            ++ "&tid=" ++ toString user_id
          let url := if pyTruthyStr tag then url ++ "&tag=" ++ tag.getD "" else url
          let keyboard := [[("Confirm & Pay", url)], [("Cancel", "cancel_action")]]
          let tag_text := if pyTruthyStr tag then " (Tag: " ++ tag.getD "" ++ ")" else ""
          let netPart := if pyTruthyStr network then " (" ++ network.getD "" ++ ")" else ""
          ⟨"Buying " ++ pyFloatStr amount ++ " " ++ token ++ netPart ++ " for $"
             ++ fmt2 fiat_amount ++ " (incl. $0.15 fee). Ready to send to "
             ++ recipient_address ++ tag_text ++ "? " ++ render keyboard,
           ⟨some .confirm_buy, data, history ++ ["buy_amount"]⟩, rr.2.1, rr.2.2⟩
  | some .confirm_buy =>
    ⟨"Transaction launched! Check the web app. I’ll wait for you! 🌟",
     ⟨none, {}, history ++ ["buy_confirmed"]⟩, qs, now⟩
  | some .awaiting_token_sell =>
    let token := strUpper text
    if (SUPPORTED_TOKENS.lookup token).isNone then
      ⟨"Hmm, I don’t know that token! Try TON, USDT, BTC, etc. What are you selling?",
       ctx, qs, now⟩
    else
      let data := { data with token := some token }
      if token == "USDT" then
        ⟨"USDT, nice! Which network? " ++ render (usdtKeyboard "sell"),
         ⟨some .awaiting_network_sell, data, history ++ ["sell"]⟩, qs, now⟩
      else
        ⟨"Great choice! How much " ++ token ++ " are you selling? (e.g., 0.5)",
         ⟨some .awaiting_amount_sell, data, history ++ ["sell"]⟩, qs, now⟩
  | some .awaiting_network_sell =>
    let network := data.network.getD (strUpper text)
    let data := { data with network := some network }
    ⟨"Got it, USDT on " ++ network ++ "! How much would you like to sell? (e.g., 0.5)",
     ⟨some .awaiting_amount_sell, data, history ++ ["sell_network"]⟩, qs, now⟩
  | some .awaiting_amount_sell =>
    match floatParse text with
    | none =>
      ⟨"Hmm, that wasn’t a number! How much are you selling?", ctx, qs, now⟩
    | some amount =>
      if amount ≤ 0 then
        ⟨"Let’s keep it positive! How much are you selling?", ctx, qs, now⟩
      else
        let data := { data with amount := some amount }
        let token := data.token.getD ""
        let rr := fetch_rate_with_retry upstream 3 now qs
        if rr.1.getD 0 == 0 then
          ⟨"Oops, couldn’t fetch the rate for that token! Try another?",
           { ctx with data := data }, rr.2.1, rr.2.2⟩
        else
          let r := rr.1.getD 0
          let fiat_amount := amount * r - 15 / 100
          let network := data.network
          let resolved := fetch_recipient_address token network live
          let recipient_address := resolved.1
          let tag := resolved.2
          let url_base :=
            if tokensGetD token == .one "TON" || (token == "USDT" && network == some "TON") then "sign"
            else if tokensGetD token == .one "EVM" || (token == "USDT" && network == some "ERC20") then "evm"
            else "solana"
          let url := TWA_BASE_URL ++ "/" ++ url_base ++ ".html?user_id=" ++ toString user_id
            ++ "&amount=" ++ pyFloatStr amount ++ "&token=" ++ token ++ "&to=" ++ recipient_address
          let url := if pyTruthyStr tag then url ++ "&tag=" ++ tag.getD "" else url
          let keyboard := [[("Send Now", url)], [("Cancel", "cancel_action")]]
          let tag_text := if pyTruthyStr tag then " (Tag: " ++ tag.getD "" ++ ")" else ""
          let netPart := if pyTruthyStr network then " (" ++ network.getD "" ++ ")" else ""
          ⟨"Selling " ++ pyFloatStr amount ++ " " ++ token ++ netPart ++ " for $"
             ++ fmt2 fiat_amount ++ " (after $0.15 fee). Send to "
             ++ recipient_address ++ tag_text ++ "! " ++ render keyboard,
           ⟨some .confirm_sell, data, history ++ ["sell_amount"]⟩, rr.2.1, rr.2.2⟩
  | some .confirm_sell =>
    ⟨"Transaction started! Check the web app. I’m here if you need me! 🚀",
     ⟨none, {}, history ++ ["sell_confirmed"]⟩, qs, now⟩
  | none =>
    let det := detect_intent_and_entities doc
    let intent := det.1
    let entities := det.2
    if intent == "buy" then
      let token := entities.token
      let amount := entities.amount
      let network := entities.network
      if pyTruthyStr token && pyTruthyQ amount then
        let tokenS := token.getD ""
        let amountQ := amount.getD 0
        let rr := fetch_rate_with_retry upstream 3 now qs
        if rr.1.getD 0 == 0 then
          ⟨"Oops, couldn’t fetch the rate for that token! Try another?", ctx, rr.2.1, rr.2.2⟩
        else
          let r := rr.1.getD 0
          let fiat_amount := amountQ * r + 15 / 100
          if tokenS == "USDT" && !(pyTruthyStr network) then
            ⟨"USDT, nice! Which network? " ++ render (usdtKeyboard "buy"),
             ⟨some .awaiting_network_buy, ⟨some tokenS, some amountQ, none⟩, history ++ ["buy"]⟩,
             rr.2.1, rr.2.2⟩
          else
            let resolved := fetch_recipient_address tokenS network live
            let recipient_address := resolved.1
            let tag := resolved.2
            let url := TWA_BASE_URL ++ "/sign.html?user_id=" ++ toString user_id
              ++ "&amount=" ++ pyFloatStr amountQ ++ "&to=" ++ recipient_address
              ++ "&tid=" ++ toString user_id
            let url := if pyTruthyStr tag then url ++ "&tag=" ++ tag.getD "" else url
            let keyboard := [[("Confirm & Pay", url)], [("Cancel", "cancel_action")]]
            let tag_text := if pyTruthyStr tag then " (Tag: " ++ tag.getD "" ++ ")" else ""
            let netPart := if pyTruthyStr network then " (" ++ network.getD "" ++ ")" else ""
            ⟨"Buying " ++ pyFloatStr amountQ ++ " " ++ tokenS ++ netPart ++ " for $"
               ++ fmt2 fiat_amount ++ " (incl. $0.15 fee). Ready to send to "
               ++ recipient_address ++ tag_text ++ "? " ++ render keyboard,
             ⟨some .confirm_buy, ⟨some tokenS, some amountQ, network⟩, history ++ ["buy_direct"]⟩,
             rr.2.1, rr.2.2⟩
      else if pyTruthyStr token then
        let tokenS := token.getD ""
        if tokenS == "USDT" then
          ⟨"USDT, nice! Which network? " ++ render (usdtKeyboard "buy"),
           ⟨some .awaiting_network_buy, ⟨some tokenS, none, none⟩, history ++ ["buy"]⟩, qs, now⟩
        else
          ⟨"Nice! How much " ++ tokenS ++ " would you like to buy?",
           ⟨some .awaiting_amount_buy, ⟨some tokenS, none, none⟩, history ++ ["buy"]⟩, qs, now⟩
      else
        let resolved := fetch_recipient_address "TON" none live
        let keyboard :=
          [[("Buy TON", TWA_BASE_URL ++ "/sign.html?user_id=" ++ toString user_id ++ "&to=" ++ resolved.1),
            ("Buy USDT", "quick_buy_usdt")],
           [("Buy BTC", TWA_BASE_URL ++ "/sign.html?user_id=" ++ toString user_id ++ "&to=" ++ resolved.1),
            ("More Options", "more_buy")]]
        ⟨"Sweet! Pick a token to buy: " ++ render keyboard,
         ⟨some .awaiting_token_buy, data, history ++ ["buy"]⟩, qs, now⟩
    else if intent == "sell" then
      let token := entities.token
      let amount := entities.amount
      let network := entities.network
      if pyTruthyStr token && pyTruthyQ amount then
        let tokenS := token.getD ""
        let amountQ := amount.getD 0
        let rr := fetch_rate_with_retry upstream 3 now qs
        if rr.1.getD 0 == 0 then
          ⟨"Oops, couldn’t fetch the rate for that token! Try another?", ctx, rr.2.1, rr.2.2⟩
        else
          let r := rr.1.getD 0
          let fiat_amount := amountQ * r - 15 / 100
          if tokenS == "USDT" && !(pyTruthyStr network) then
            ⟨"USDT, nice! Which network? " ++ render (usdtKeyboard "sell"),
             ⟨some .awaiting_network_sell, ⟨some tokenS, some amountQ, none⟩, history ++ ["sell"]⟩,
             rr.2.1, rr.2.2⟩
          else
            let resolved := fetch_recipient_address tokenS network live
            let recipient_address := resolved.1
            let tag := resolved.2
            let url_base :=
              if tokensGetD tokenS == .one "TON" || (tokenS == "USDT" && network == some "TON") then "sign"
              else if tokensGetD tokenS == .one "EVM" || (tokenS == "USDT" && network == some "ERC20") then "evm"
              else "solana"
            let url := TWA_BASE_URL ++ "/" ++ url_base ++ ".html?user_id=" ++ toString user_id
              ++ "&amount=" ++ pyFloatStr amountQ ++ "&token=" ++ tokenS ++ "&to=" ++ recipient_address
            let url := if pyTruthyStr tag then url ++ "&tag=" ++ tag.getD "" else url
            let keyboard := [[("Send Now", url)], [("Cancel", "cancel_action")]]
            let tag_text := if pyTruthyStr tag then " (Tag: " ++ tag.getD "" ++ ")" else ""
            let netPart := if pyTruthyStr network then " (" ++ network.getD "" ++ ")" else ""
            ⟨"Selling " ++ pyFloatStr amountQ ++ " " ++ tokenS ++ netPart ++ " for $"
               ++ fmt2 fiat_amount ++ " (after $0.15 fee). Send to "
               ++ recipient_address ++ tag_text ++ "! " ++ render keyboard,
             ⟨some .confirm_sell, ⟨some tokenS, some amountQ, network⟩, history ++ ["sell_direct"]⟩,
             rr.2.1, rr.2.2⟩
      else if pyTruthyStr token then
        let tokenS := token.getD ""
        if tokenS == "USDT" then
          ⟨"USDT, nice! Which network? " ++ render (usdtKeyboard "sell"),
           ⟨some .awaiting_network_sell, ⟨some tokenS, none, none⟩, history ++ ["sell"]⟩, qs, now⟩
        else
          ⟨"Great! How much " ++ tokenS ++ " are you selling?",
           ⟨some .awaiting_amount_sell, ⟨some tokenS, none, none⟩, history ++ ["sell"]⟩, qs, now⟩
      else
        let resolved := fetch_recipient_address "TON" none live
        let keyboard :=
          [[("Sell TON", TWA_BASE_URL ++ "/sign.html?user_id=" ++ toString user_id ++ "&to=" ++ resolved.1),
            ("Sell USDT", "quick_sell_usdt")],
           [("Sell BTC", TWA_BASE_URL ++ "/sign.html?user_id=" ++ toString user_id ++ "&to=" ++ resolved.1),
            ("More Options", "more_sell")]]
        ⟨"Got it! Pick a token to sell: " ++ render keyboard,
         ⟨some .awaiting_token_sell, data, history ++ ["sell"]⟩, qs, now⟩
    else if intent == "connect_wallet" then
      let keyboard :=
        [[("Connect TON", TWA_BASE_URL ++ "/sign.html?user_id=" ++ toString user_id),
          ("Connect EVM", TWA_BASE_URL ++ "/evm.html?user_id=" ++ toString user_id)],
         [("Connect Solana", TWA_BASE_URL ++ "/solana.html?user_id=" ++ toString user_id)]]
      ⟨"Let’s connect your wallet! Pick a network: " ++ render keyboard,
       ⟨none, data, history ++ ["connect_wallet"]⟩, qs, now⟩
    else if intent == "balance" then
      -- `fetch_ton_balance` is defined nowhere in the source: this branch
      -- raises NameError before `update_context` runs, leaving the stored
      -- context unchanged.
      ⟨"NameError: name \x27fetch_ton_balance\x27 is not defined", ctx, qs, now⟩
    else if intent == "price" then
      if pyTruthyStr entities.token then
        let token := entities.token.getD ""
        let rr := fetch_rate_with_retry upstream 3 now qs
        if rr.1.getD 0 == 0 then
          ⟨"\x53orry, I couldn’t fetch the price for that token! Try another?", ctx, rr.2.1, rr.2.2⟩
        else
          ⟨token ++ " is at $" ++ fmt2 (rr.1.getD 0) ++ " right now! Want a chart?",
           ⟨none, data, history ++ ["price"]⟩, rr.2.1, rr.2.2⟩
      else
        ⟨"Tell me which token’s price you want to check!", ctx, qs, now⟩
    else if intent == "chart" then
      if pyTruthyStr entities.token then
        ⟨"Opening a chart for " ++ entities.token.getD "" ++ "… Check your browser! (Simulated: "
           ++ TWA_BASE_URL ++ "/chart.html)",
         ⟨none, data, history ++ ["chart"]⟩, qs, now⟩
      else
        ⟨"Which token’s chart would you like to see?", ctx, qs, now⟩
    else if intent == "help" then
      let keyboard := [[("Buy", "quick_buy")], [("Sell", "quick_sell")], [("Balance", "quick_balance")]]
      ⟨"I’m here to help! You can buy/sell crypto, check prices, see charts, or connect your wallet. Pick an action: "
         ++ render keyboard,
       ⟨none, data, history ++ ["help"]⟩, qs, now⟩
    else if intent == "greeting" then
      -- `random` is never imported: the reply expression raises NameError
      -- after `update_context` has already stored the new context.
      ⟨"NameError: name \x27random\x27 is not defined",
       ⟨none, data, history ++ ["greeting"]⟩, qs, now⟩
    else if intent == "thanks" then
      ⟨"NameError: name \x27random\x27 is not defined",
       ⟨none, data, history ++ ["thanks"]⟩, qs, now⟩
    else if intent == "exit" then
      ⟨"NameError: name \x27random\x27 is not defined",
       ⟨none, {}, history ++ ["exit"]⟩, qs, now⟩
    else if intent == "about" then
      ⟨"I’m GigiP2Bot, your cosmic crypto guide! I can help you buy, sell, check prices, and more. What do you want to do?",
       ⟨none, data, history ++ ["about"]⟩, qs, now⟩
    else if intent == "time" then
      -- The actual reply interpolates `datetime.now()`; the timestamp text is
      -- external to the model.
      ⟨"It’s <now>. What’s on your mind?", ⟨none, data, history ++ ["time"]⟩, qs, now⟩
    else if intent == "cancel" then
      ⟨"Okay, I’ve canceled that for you! What’s next?",
       ⟨none, {}, history ++ ["cancel"]⟩, qs, now⟩
    else
      let past_intents := history.filter
        (fun h => !(["greeting", "thanks", "exit", "conversation", "cancel"].contains h))
      if !past_intents.isEmpty && (lastN 3 past_intents).contains "sell"
          && pyTruthyStr entities.token then
        ⟨"Do you want to sell more " ++ entities.token.getD "" ++ "? How much?",
         ⟨some .awaiting_amount_sell, ⟨entities.token, none, none⟩, history ++ ["sell"]⟩, qs, now⟩
      else
        let suggestions0 := ["buy", "sell", "balance", "price", "chart"]
        let suggestions1 :=
          if !past_intents.isEmpty then
            suggestions0.filter (fun s => !((lastN 2 past_intents).contains s))
          else suggestions0
        let suggestions := if suggestions1.length ≥ 3 then suggestions1.take 3 else suggestions1
        let keyboard := suggestions.map (fun s => [(strCapitalize s, "quick_" ++ s)])
        ⟨"I’m not sure what you mean! Maybe try " ++ strJoin ", " suggestions.dropLast
           ++ " or " ++ suggestions.getLastD "" ++ "? Pick an action: " ++ render keyboard,
         ⟨none, data, history ++ ["conversation"]⟩, qs, now⟩

/-! ## Specification-side definitions used to state claims -/

/-- Tokens on which the entity loop of `detect_intent_and_entities` records
an amount: spaCy's `like_num` holds and `float(...)` succeeds. -/
def numTok (t : Tok) : Bool := t.likeNum && (floatParse t.text).isSome

/-- The amount carried by the *first* amount-recording token of the input
(what the specification asserts the extractor returns). -/
def firstAmount (doc : List Tok) : Option ℚ :=
  match doc.find? numTok with
  | some t => floatParse t.text
  | none => none

/-- The amount carried by the *last* amount-recording token of the input
(what the overwrite in the source's entity loop actually returns). -/
def lastAmount (doc : List Tok) : Option ℚ :=
  match doc.reverse.find? numTok with
  | some t => floatParse t.text
  | none => none

/-- `pat` occurs as a substring of `s`. -/
def strContains (s pat : String) : Prop := ∃ a b, s = a ++ pat ++ b

/-- The spaCy tokenization of the lower-cased `"Sell 50 TON"`. -/
def sellDoc : List Tok := [⟨"sell", false⟩, ⟨"50", true⟩, ⟨"ton", false⟩]

/-- The turn of claim C9: `"Sell 50 TON"` from `Idle`, quote oracle returning
5.00, recipient lookup failing over to the static table, markup rendered as
`"<keyboard>"`. -/
def c9run : HandleResult :=
  handle_conversation (fun _ => some 5) (.error ()) (fun _ => "<keyboard>") 7 0 ⟨none, 0⟩
    ⟨none, {}, []⟩ "Sell 50 TON" sellDoc

/-! ## Shared lemmas -/

theorem mem_of_lookup_eq_some {α β : Type} [BEq α] [LawfulBEq α] {k : α} {v : β} :
    ∀ (l : List (α × β)), l.lookup k = some v → (k, v) ∈ l := by
  intro l
  induction l with
  | nil => intro h; simp [List.lookup] at h
  | cons p es ih =>
    intro h
    rcases p with ⟨a, b⟩
    rw [List.lookup_cons] at h
    cases hk : (k == a) with
    | true =>
      rw [hk] at h
      simp only [Option.some.injEq] at h
      have ha : k = a := by simpa using hk
      subst ha; subst h
      exact List.mem_cons_self _ _
    | false =>
      rw [hk] at h
      exact List.mem_cons_of_mem _ (ih h)

theorem fallback_lookup_ne_sentinel {k v : String}
    (h : FALLBACK_ADDRESSES.lookup k = some v) : v ≠ "default_recipient" := by
  have hm := mem_of_lookup_eq_some FALLBACK_ADDRESSES h
  have hall : ∀ p ∈ FALLBACK_ADDRESSES, p.2 ≠ "default_recipient" := by decide
  exact hall (k, v) hm

theorem lower_lookup_ne_empty {s T : String}
    (h : SUPPORTED_TOKENS_LOWER.lookup s = some T) : T ≠ "" := by
  have hm := mem_of_lookup_eq_some SUPPORTED_TOKENS_LOWER h
  have hall : ∀ p ∈ SUPPORTED_TOKENS_LOWER, p.2 ≠ "" := by decide
  exact hall (s, T) hm

theorem lookup_lower_eq_none_of_floatParse {s : String} {A : ℚ}
    (h : floatParse s = some A) : SUPPORTED_TOKENS_LOWER.lookup s = none := by
  cases hl : SUPPORTED_TOKENS_LOWER.lookup s with
  | none => rfl
  | some T =>
    exfalso
    have hm := mem_of_lookup_eq_some SUPPORTED_TOKENS_LOWER hl
    have hall : ∀ p ∈ SUPPORTED_TOKENS_LOWER, floatParse p.1 = none := by decide
    have hnone := hall (s, T) hm
    rw [hnone] at h
    cases h

/-- A first attempt that hits the upstream oracle successfully short-circuits
the retry loop: one upstream call, cache populated, no sleeps. -/
theorem retry_first_success (upstream : Nat → Option ℚ) (n : Nat) (now : ℤ)
    (qs : QuoteState) (r : ℚ) (hc : qs.cache = none) (hu : upstream qs.calls = some r) :
    fetch_rate_with_retry upstream (n + 1) now qs =
      (some r, ⟨some (r, now + 60), qs.calls + 1⟩, now) := by
  rw [fetch_rate_with_retry]
  simp [fetch_crypto_rates_bybit, hc, hu]

/-! ## Claim C3 (rate-limiter admission count) -/

/-- Claim C3 counterexample: ten `rate_limit` calls at seconds 1..10 (all
inside one rolling 60-second window) from a fresh key admit only **9** calls,
and the 10th call — not the 11th — is the first rejected one.  The claim's
"exactly 10 admitted, the 11th rejected" is false on the code, because the
check records the current timestamp first and then requires the window count
(including the current call) to be below 10. -/
theorem c3_counterexample :
    (runCalls [] [1, 2, 3, 4, 5, 6, 7, 8, 9, 10]).1.count true = 9 ∧
    (runCalls [] [1, 2, 3, 4, 5, 6, 7, 8, 9, 10]).1.getLast? = some false := by decide

/-- Claim C3 (amended): a call is admitted iff at most 8 recorded timestamps
remain in the trailing 60-second window before the call (the current call is
recorded first and counted, so starting fresh the first 9 calls of a burst
are admitted and the 10th is rejected); and once every recorded timestamp has
aged past 60 seconds, admission resumes. -/
theorem c3_amended (now : ℤ) (s : List ℤ) :
    ((∀ t ∈ s, now - 60 < t ∧ t ≤ now) → now ∉ s →
      ((rate_limit now s).1 = true ↔ s.length < 9)) ∧
    ((∀ t ∈ s, 0 ≤ t ∧ t ≤ now - 60) → (rate_limit now s).1 = true) := by
  constructor
  · intro hin hnot
    have hprune : zremOld now s = s := by
      apply List.filter_eq_self.mpr
      intro t ht
      have h1 := hin t ht
      simp only [Bool.not_eq_true', Bool.and_eq_false_iff, decide_eq_false_iff_not, not_le]
      omega
    have hzadd : zaddNow now (zremOld now s) = s ++ [now] := by
      rw [hprune]; unfold zaddNow; rw [if_neg hnot]
    have hcount : windowCount now (s ++ [now]) = s.length + 1 := by
      unfold windowCount
      rw [List.filter_append]
      have h1 : s.filter (fun t => decide (now - 60 ≤ t) && decide (t ≤ now)) = s := by
        apply List.filter_eq_self.mpr
        intro t ht
        have h2 := hin t ht
        simp only [Bool.and_eq_true, decide_eq_true_iff]
        omega
      have h2 : [now].filter (fun t => decide (now - 60 ≤ t) && decide (t ≤ now)) = [now] := by
        apply List.filter_eq_self.mpr
        intro t ht
        simp only [List.mem_singleton] at ht
        subst ht
        simp only [Bool.and_eq_true, decide_eq_true_iff]
        omega
      rw [h1, h2, List.length_append, List.length_cons, List.length_nil]
    show decide (windowCount now (zaddNow now (zremOld now s)) < 10) = true ↔ _
    rw [hzadd, hcount]
    simp only [decide_eq_true_iff]
    omega
  · intro hold
    have hprune : zremOld now s = [] := by
      apply List.filter_eq_nil_iff.mpr
      intro t ht
      have h1 := hold t ht
      simp only [Bool.not_eq_true', Bool.not_eq_false, Bool.and_eq_true, decide_eq_true_iff]
      omega
    show decide (windowCount now (zaddNow now (zremOld now s)) < 10) = true
    rw [hprune]
    unfold zaddNow
    rw [if_neg (List.not_mem_nil now)]
    unfold windowCount
    have hfil : ([] ++ [now]).filter (fun t => decide (now - 60 ≤ t) && decide (t ≤ now)) = [now] := by
      apply List.filter_eq_self.mpr
      intro t ht
      simp only [List.nil_append, List.mem_singleton] at ht
      subst ht
      simp only [Bool.and_eq_true, decide_eq_true_iff]
      omega
    rw [hfil, List.length_singleton]
    decide

/-- Witness for `c3_amended` at concrete inputs: with 3 in-window timestamps
the next call is admitted, and with only aged-out timestamps it is admitted. -/
theorem c3_amended_witness :
    (rate_limit 50 [10, 20, 30]).1 = true ∧ (rate_limit 70 [1, 2]).1 = true :=
  ⟨((c3_amended 50 [10, 20, 30]).1 (by decide) (by decide)).mpr (by decide),
   (c3_amended 70 [1, 2]).2 (by decide)⟩

/-! ## Claim C4 (rejected calls and rate-limiter state) -/

/-- Claim C4 counterexample: with 10 in-window timestamps recorded, the next
call is rejected and yet the per-key state changes — the current timestamp is
recorded.  This refutes "a rejected call leaves the per-key state unchanged /
the timestamp is recorded only when the call is admitted": `zadd` runs
unconditionally, before the verdict is even computed. -/
theorem c4_counterexample :
    (rate_limit 11 [1, 2, 3, 4, 5, 6, 7, 8, 9, 10]).1 = false ∧
    (rate_limit 11 [1, 2, 3, 4, 5, 6, 7, 8, 9, 10]).2 ≠ [1, 2, 3, 4, 5, 6, 7, 8, 9, 10] ∧
    (11 : ℤ) ∈ (rate_limit 11 [1, 2, 3, 4, 5, 6, 7, 8, 9, 10]).2 := by decide

/-- Claim C4 (amended): every `rate_limit` call, admitted or rejected,
records the current timestamp in the per-key state (besides pruning aged-out
entries); rejection does not leave the state unchanged. -/
theorem c4_amended (now : ℤ) (s : List ℤ) : now ∈ (rate_limit now s).2 := by
  show now ∈ zaddNow now (zremOld now s)
  unfold zaddNow
  split
  · assumption
  · exact List.mem_append.mpr (Or.inr (List.mem_singleton.mpr rfl))

/-- Witness for `c4_amended` at a concrete input. -/
theorem c4_amended_witness : (0 : ℤ) ∈ (rate_limit 0 []).2 := c4_amended 0 []

/-! ## Claim C6 (quote cache idempotence within the TTL) -/

/-- Claim C6: if a `fetch_crypto_rates_bybit` call at `t1` populates the
cache (first upstream request succeeds with `v`), then a second call for the
same symbol at any `t2` within the 60-second TTL returns the identical value
`v` and issues **no** further upstream request (the upstream-call counter
stays at one more than before the first call). -/
theorem c6_cache_idempotent (upstream : Nat → Option ℚ) (qs : QuoteState)
    (t1 t2 : ℤ) (v : ℚ) (hc : qs.cache = none) (hu : upstream qs.calls = some v)
    (_h12 : t1 ≤ t2) (h2 : t2 < t1 + 60) :
    (fetch_crypto_rates_bybit upstream t1 qs).1 = some v ∧
    (fetch_crypto_rates_bybit upstream t2 (fetch_crypto_rates_bybit upstream t1 qs).2).1 = some v ∧
    (fetch_crypto_rates_bybit upstream t2 (fetch_crypto_rates_bybit upstream t1 qs).2).2.calls =
      qs.calls + 1 := by
  have h1 : fetch_crypto_rates_bybit upstream t1 qs =
      (some v, ⟨some (v, t1 + 60), qs.calls + 1⟩) := by
    simp [fetch_crypto_rates_bybit, hc, hu]
  rw [h1]
  refine ⟨rfl, ?_, ?_⟩ <;> simp [fetch_crypto_rates_bybit, h2]

/-- Witness for `c6_cache_idempotent` at concrete inputs. -/
theorem c6_cache_idempotent_witness :
    (fetch_crypto_rates_bybit (fun _ => some 5) 0 ⟨none, 0⟩).1 = some 5 ∧
    (fetch_crypto_rates_bybit (fun _ => some 5) 59
        (fetch_crypto_rates_bybit (fun _ => some 5) 0 ⟨none, 0⟩).2).1 = some 5 ∧
    (fetch_crypto_rates_bybit (fun _ => some 5) 59
        (fetch_crypto_rates_bybit (fun _ => some 5) 0 ⟨none, 0⟩).2).2.calls = 0 + 1 :=
  c6_cache_idempotent (fun _ => some 5) ⟨none, 0⟩ 0 59 5 rfl rfl (by decide) (by decide)

/-! ## Claim C7 (quote retry budget, delay, and failure as a value) -/

/-- Claim C7: with an empty cache, if the first two upstream requests fail
then `fetch_rate_with_retry` (budget 3): (a) when the third request returns
`v`, it returns `v`, makes exactly 3 upstream calls, and the clock advance of
2 seconds shows the fixed 1-second delay between the three attempts; (b) when
the third request also fails it returns `none` (failure is a value — the
function is total and never raises), after exactly 3 upstream calls. -/
theorem c7_retry (upstream : Nat → Option ℚ) (qs : QuoteState) (now : ℤ)
    (hc : qs.cache = none) (h0 : upstream qs.calls = none)
    (h1 : upstream (qs.calls + 1) = none) :
    (∀ v : ℚ, upstream (qs.calls + 2) = some v →
      fetch_rate_with_retry upstream 3 now qs =
        (some v, ⟨some (v, now + 2 + 60), qs.calls + 3⟩, now + 2)) ∧
    (upstream (qs.calls + 2) = none →
      fetch_rate_with_retry upstream 3 now qs = (none, ⟨none, qs.calls + 3⟩, now + 3)) := by
  obtain ⟨cache, calls⟩ := qs
  simp only at hc
  subst hc
  constructor
  · intro v h2
    show fetch_rate_with_retry upstream (2 + 1) now ⟨none, calls⟩ = _
    rw [fetch_rate_with_retry]
    simp only [fetch_crypto_rates_bybit, h0]
    show fetch_rate_with_retry upstream (1 + 1) (now + 1) ⟨none, calls + 1⟩ = _
    rw [fetch_rate_with_retry]
    simp only [fetch_crypto_rates_bybit, h1]
    show fetch_rate_with_retry upstream (0 + 1) (now + 1 + 1) ⟨none, calls + 1 + 1⟩ = _
    rw [fetch_rate_with_retry]
    have h2' : upstream (calls + 1 + 1) = some v := by rw [show calls + 1 + 1 = calls + 2 by omega]; exact h2
    simp only [fetch_crypto_rates_bybit, h2']
    have e1 : now + 1 + 1 + 60 = now + 2 + 60 := by omega
    have e2 : calls + 1 + 1 + 1 = calls + 3 := by omega
    have e3 : now + 1 + 1 = now + 2 := by omega
    rw [e1, e2, e3]
  · intro h2
    show fetch_rate_with_retry upstream (2 + 1) now ⟨none, calls⟩ = _
    rw [fetch_rate_with_retry]
    simp only [fetch_crypto_rates_bybit, h0]
    show fetch_rate_with_retry upstream (1 + 1) (now + 1) ⟨none, calls + 1⟩ = _
    rw [fetch_rate_with_retry]
    simp only [fetch_crypto_rates_bybit, h1]
    show fetch_rate_with_retry upstream (0 + 1) (now + 1 + 1) ⟨none, calls + 1 + 1⟩ = _
    rw [fetch_rate_with_retry]
    have h2' : upstream (calls + 1 + 1) = none := by rw [show calls + 1 + 1 = calls + 2 by omega]; exact h2
    simp only [fetch_crypto_rates_bybit, h2']
    rw [fetch_rate_with_retry]
    have e2 : calls + 1 + 1 + 1 = calls + 3 := by omega
    have e3 : now + 1 + 1 + 1 = now + 3 := by omega
    rw [e2, e3]

/-- Witness for `c7_retry` at concrete inputs (succeed-on-third and
all-three-fail oracles). -/
theorem c7_retry_witness :
    fetch_rate_with_retry (fun n => if n = 2 then some 7 else none) 3 0 ⟨none, 0⟩ =
      (some 7, ⟨some (7, 0 + 2 + 60), 0 + 3⟩, 0 + 2) ∧
    fetch_rate_with_retry (fun _ => none) 3 0 ⟨none, 0⟩ = (none, ⟨none, 0 + 3⟩, 0 + 3) :=
  ⟨(c7_retry (fun n => if n = 2 then some 7 else none) ⟨none, 0⟩ 0 rfl rfl rfl).1 7 rfl,
   (c7_retry (fun _ => none) ⟨none, 0⟩ 0 rfl rfl rfl).2 rfl⟩

/-! ## Claim C8 (address fallback) -/

/-- Claim C8: for every token / optional network whose key has an entry `fb`
in `FALLBACK_ADDRESSES`, if the live recipient lookup raises (`.error`) or
returns a missing/empty `address` field, `fetch_recipient_address` returns
the configured fallback address `fb` — which is never the sentinel
`"default_recipient"`. -/
theorem c8_fallback (token : String) (network : Option String)
    (live : Except Unit RecipientResp) (fb : String)
    (hfb : FALLBACK_ADDRESSES.lookup (recipKey token network) = some fb)
    (hfail : match live with
             | .ok d => d.address = none ∨ d.address = some ""
             | .error _ => True) :
    (fetch_recipient_address token network live).1 = fb ∧ fb ≠ "default_recipient" := by
  refine ⟨?_, fallback_lookup_ne_sentinel hfb⟩
  cases live with
  | error e =>
    show (FALLBACK_ADDRESSES.lookup (recipKey token network)).getD "default_recipient" = fb
    rw [hfb]; rfl
  | ok d =>
    show pyOrStr d.address ((FALLBACK_ADDRESSES.lookup (recipKey token network)).getD "default_recipient") = fb
    have hfalsy : pyTruthyStr d.address = false := by
      rcases hfail with h | h <;> rw [h] <;> rfl
    unfold pyOrStr
    rw [hfalsy, hfb]
    rfl

/-- Witness for `c8_fallback`: live lookup fails for TON, the configured TON
fallback address is returned. -/
theorem c8_fallback_witness :
    (fetch_recipient_address "TON" none (.error ())).1 =
      "UQCMbQomO3XD1FSt7pyfjqj2jBRzyg23myKDtCky_CedKpEH" ∧
    "UQCMbQomO3XD1FSt7pyfjqj2jBRzyg23myKDtCky_CedKpEH" ≠ "default_recipient" :=
  c8_fallback "TON" none (.error ()) "UQCMbQomO3XD1FSt7pyfjqj2jBRzyg23myKDtCky_CedKpEH" rfl trivial

/-! ## Claim C10 (destination tags: XRP only, never missing for XRP) -/

/-- Claim C10: `fetch_recipient_address` returns `tag = none` for every token
other than XRP (even when the live response carries a tag field), and for XRP
it never returns `none` (the live tag when present and non-empty, otherwise
the configured `FALLBACK_XRP_TAG`). -/
theorem c10_tag (token : String) (network : Option String)
    (live : Except Unit RecipientResp) :
    (token ≠ "XRP" → (fetch_recipient_address token network live).2 = none) ∧
    (token = "XRP" → (fetch_recipient_address token network live).2 ≠ none) := by
  constructor
  · intro hne
    have hb : (token == "XRP") = false := by simpa using hne
    cases live with
    | error e => show (if token == "XRP" then some FALLBACK_XRP_TAG else none) = none; rw [hb]; rfl
    | ok d =>
      show pyOrOptStr (if token == "XRP" then d.tag else none)
          (if token == "XRP" then some FALLBACK_XRP_TAG else none) = none
      rw [hb]
      rfl
  · intro heq
    subst heq
    cases live with
    | error e => simp [fetch_recipient_address, FALLBACK_XRP_TAG]
    | ok d =>
      show pyOrOptStr (if "XRP" == "XRP" then d.tag else none)
          (if "XRP" == "XRP" then some FALLBACK_XRP_TAG else none) ≠ none
      cases hd : d.tag with
      | none => simp [pyOrOptStr, pyTruthyStr]
      | some s =>
        by_cases hs : s = ""
        · subst hs; simp [pyOrOptStr, pyTruthyStr]
        · simp [pyOrOptStr, pyTruthyStr, hs]

/-- Witness for `c10_tag`: BTC gets no tag even when the live response has
one; XRP gets a tag even when the live lookup errors. -/
theorem c10_tag_witness :
    (fetch_recipient_address "BTC" none (.ok ⟨none, some "liveTag"⟩)).2 = none ∧
    (fetch_recipient_address "XRP" none (.error ())).2 ≠ none :=
  ⟨(c10_tag "BTC" none (.ok ⟨none, some "liveTag"⟩)).1 (by decide),
   (c10_tag "XRP" none (.error ())).2 rfl⟩

/-! ## Claim C5 (which numeric token becomes the amount entity) -/

/-- Claim C5 counterexample: on the two-token input `"5 10"` — both tokens
numeric — the extractor returns the amount of the *last* parseable token
(`10`), not the first (`5`) as the claim states: each iteration of the entity
loop overwrites `entities["amount"]`. -/
theorem c5_counterexample :
    firstAmount [⟨"5", true⟩, ⟨"10", true⟩] = some 5 ∧
    (detect_intent_and_entities [⟨"5", true⟩, ⟨"10", true⟩]).2.amount = some 10 ∧
    (detect_intent_and_entities [⟨"5", true⟩, ⟨"10", true⟩]).2.amount ≠
      firstAmount [⟨"5", true⟩, ⟨"10", true⟩] := by decide

/-- The `amount` component of one entity-loop iteration: overwritten exactly
when the token is numeric and parses. -/
theorem entityStep_amount (e : Entities) (t : Tok) :
    (entityStep e t).amount = if numTok t then floatParse t.text else e.amount := by
  unfold entityStep numTok
  cases hl : t.likeNum with
  | false =>
    simp only [Bool.false_and, Bool.and_false, if_neg (by simp : ¬(false = true))]
    cases hlk : SUPPORTED_TOKENS_LOWER.lookup t.text <;>
      simp only [Bool.if_false_left, if_false] <;> split <;> rfl
  | true =>
    cases hp : floatParse t.text with
    | none => simp [hp]
    | some v =>
      simp only [hp, Option.isNone_some, Bool.and_false, Bool.true_and, Option.isSome_some,
        Bool.if_false_left, Bool.not_false, if_true, if_false]
      simp only [Bool.false_eq_true, if_false]
      cases hlk : SUPPORTED_TOKENS_LOWER.lookup t.text <;> simp [hlk] <;> split <;> rfl

/-- Folding the entity loop records the amount of the last parseable numeric
token, the accumulator's amount surviving only when no such token exists. -/
theorem foldl_entityStep_amount : ∀ (doc : List Tok) (e : Entities),
    (List.foldl entityStep e doc).amount =
      match doc.reverse.find? numTok with
      | some t => floatParse t.text
      | none => e.amount := by
  intro doc
  induction doc with
  | nil => intro e; rfl
  | cons t ts ih =>
    intro e
    rw [List.foldl_cons, ih, List.reverse_cons, List.find?_append]
    cases hf : ts.reverse.find? numTok with
    | some u => rfl
    | none =>
      rw [Option.none_or, List.find?_cons, entityStep_amount]
      cases hn : numTok t with
      | true => rfl
      | false => rfl

/-- Claim C5 (amended): for every input, the amount entity returned by
`detect_intent_and_entities` is the value of the **last** token of the input
that spaCy flags numeric and that parses as a (non-negative) real — each
parseable numeric token overwrites the previously recorded amount. -/
theorem c5_amended (doc : List Tok) :
    (detect_intent_and_entities doc).2.amount = lastAmount doc := by
  have h := foldl_entityStep_amount doc {}
  unfold detect_intent_and_entities lastAmount
  cases hf : SYNONYMS.find? (fun p => doc.any (fun t => p.2.contains t.text)) <;>
    simpa [hf] using h

/-- Witness for `c5_amended` at a concrete input. -/
theorem c5_amended_witness :
    (detect_intent_and_entities [⟨"2", true⟩, ⟨"7", true⟩]).2.amount =
      lastAmount [⟨"2", true⟩, ⟨"7", true⟩] :=
  c5_amended [⟨"2", true⟩, ⟨"7", true⟩]

/-! ## Claim C1 ("cancel" resets the session) -/

/-- Claim C1 counterexample: in state `awaiting_token_buy` with a token slot
already filled, the input `"cancel"` is consumed as a (rejected) token name:
the resulting state is still `awaiting_token_buy` and the slots are
untouched, not `Idle` with empty slots as the claim asserts.  The explicit
state branches run before intent extraction, so the `cancel` intent is never
seen in the `Awaiting*` states. -/
theorem c1_counterexample :
    (handle_conversation (fun _ => none) (.error ()) (fun _ => "") 7 0 ⟨none, 0⟩
        ⟨some .awaiting_token_buy, ⟨some "TON", none, none⟩, []⟩ "cancel"
        [⟨"cancel", false⟩]).ctx.state = some .awaiting_token_buy ∧
    (handle_conversation (fun _ => none) (.error ()) (fun _ => "") 7 0 ⟨none, 0⟩
        ⟨some .awaiting_token_buy, ⟨some "TON", none, none⟩, []⟩ "cancel"
        [⟨"cancel", false⟩]).ctx.data = ⟨some "TON", none, none⟩ := by decide

/-- Claim C1 (amended): processing `"cancel"` empties the session only where
the intent extractor (or the unconditional confirmation branch) runs: from a
`Confirming` state any input — `"cancel"` included — resets to `Idle` with
empty slots, and from `Idle` the extracted `cancel` intent keeps the state
`Idle` and empties the slots; in the `AwaitingToken`/`AwaitingNetwork`/
`AwaitingAmount` states the text is consumed as slot input and the session is
**not** reset. -/
theorem c1_amended (up : Nat → Option ℚ) (live : Except Unit RecipientResp)
    (render : List (List (String × String)) → String) (uid now : ℤ) (qs : QuoteState)
    (d : Entities) (h : List String) (msg : String) (doc : List Tok) :
    ((handle_conversation up live render uid now qs ⟨some .confirm_buy, d, h⟩ msg doc).ctx.state = none ∧
     (handle_conversation up live render uid now qs ⟨some .confirm_buy, d, h⟩ msg doc).ctx.data = {}) ∧
    ((handle_conversation up live render uid now qs ⟨some .confirm_sell, d, h⟩ msg doc).ctx.state = none ∧
     (handle_conversation up live render uid now qs ⟨some .confirm_sell, d, h⟩ msg doc).ctx.data = {}) ∧
    ((handle_conversation up live render uid now qs ⟨none, d, h⟩ "cancel" [⟨"cancel", false⟩]).ctx.state = none ∧
     (handle_conversation up live render uid now qs ⟨none, d, h⟩ "cancel" [⟨"cancel", false⟩]).ctx.data = {}) :=
  ⟨⟨rfl, rfl⟩, ⟨rfl, rfl⟩, rfl, rfl⟩

/-- Witness for `c1_amended` at concrete inputs. -/
theorem c1_amended_witness :
    (handle_conversation (fun _ => none) (.error ()) (fun _ => "") 0 0 ⟨none, 0⟩
        ⟨none, {}, []⟩ "cancel" [⟨"cancel", false⟩]).ctx.state = none :=
  (c1_amended (fun _ => none) (.error ()) (fun _ => "") 0 0 ⟨none, 0⟩ {} [] "x" []).2.2.1

/-! ## Claim C2 (single-turn buy order) -/

/-- Claim C2 counterexample: the single-turn input `"buy 100 ton"` from
`Idle`, with the quote oracle succeeding, does **not** reach
`Confirming(Buy)`: the word `"buy"` is missing from its own synonym list
(`SYNONYMS["buy"]` holds only `purchase/grab/get/want/need/acquire/buying`),
so the intent is classified as `"conversation"` and the turn falls through to
the suggestion prompt, leaving the state `Idle`.  Moreover, even with a
recognized buy synonym, USDT with no network goes to `AwaitingNetwork`, not
`Confirming`. -/
theorem c2_counterexample :
    (detect_intent_and_entities [⟨"buy", false⟩, ⟨"100", true⟩, ⟨"ton", false⟩]).1 =
      "conversation" ∧
    (handle_conversation (fun _ => some 5) (.error ()) (fun _ => "") 7 0 ⟨none, 0⟩
        ⟨none, {}, []⟩ "buy 100 ton"
        [⟨"buy", false⟩, ⟨"100", true⟩, ⟨"ton", false⟩]).ctx =
      ⟨none, {}, ["conversation"]⟩ ∧
    (handle_conversation (fun _ => some 5) (.error ()) (fun _ => "") 7 0 ⟨none, 0⟩
        ⟨none, {}, []⟩ "get 100 usdt"
        [⟨"get", false⟩, ⟨"100", true⟩, ⟨"usdt", false⟩]).ctx.state =
      some .awaiting_network_buy := by decide

/-- On a three-token input `synonym amount token` with a configured buy
synonym (here `"get"`), a parseable amount text and a supported non-USDT
token text, the extractor yields the buy intent with both entities. -/
theorem detect_buy_single_turn (atext tokLower T : String) (A : ℚ)
    (hA : floatParse atext = some A)
    (hT : SUPPORTED_TOKENS_LOWER.lookup tokLower = some T) (hne : T ≠ "USDT") :
    detect_intent_and_entities [⟨"get", false⟩, ⟨atext, true⟩, ⟨tokLower, false⟩] =
      ("buy", ⟨some T, some A, none⟩) := by
  have hnl : SUPPORTED_TOKENS_LOWER.lookup atext = none :=
    lookup_lower_eq_none_of_floatParse hA
  have h2 : entityStep {} ⟨atext, true⟩ = { amount := some A } := by
    unfold entityStep
    rw [hA]
    simp [hnl]
  have h3 : entityStep { amount := some A } ⟨tokLower, false⟩ = ⟨some T, some A, none⟩ := by
    unfold entityStep
    have hu : (some T == some "USDT") = false := by simp [hne]
    simp only [Bool.false_and, Bool.and_false, if_neg (by simp : ¬(false = true)), hT]
    rw [hu]
    simp
  have hfold : List.foldl entityStep {} [⟨"get", false⟩, ⟨atext, true⟩, ⟨tokLower, false⟩] =
      ⟨some T, some A, none⟩ := by
    show entityStep (entityStep (entityStep {} ⟨"get", false⟩) ⟨atext, true⟩) ⟨tokLower, false⟩ = _
    rw [show entityStep {} ⟨"get", false⟩ = {} from rfl, h2, h3]
  unfold detect_intent_and_entities
  rw [hfold]
  rfl

/-- Claim C2 (amended): for every supported token other than USDT and every
positive amount, a single turn from `Idle` whose tokens are a configured buy
synonym (e.g. `"get"`), the amount and the token — with the quote fetch
succeeding with a nonzero rate — transitions directly to `Confirming(Buy)`
with both slots filled (history records the direct path `"buy_direct"`).
The literal word `"buy"` is not in the synonym table (see the
counterexample), and USDT without a network detours to `AwaitingNetwork`. -/
theorem c2_amended (up : Nat → Option ℚ) (live : Except Unit RecipientResp)
    (render : List (List (String × String)) → String) (uid now : ℤ) (qs : QuoteState)
    (d : Entities) (h : List String) (msg : String)
    (atext tokLower T : String) (A r : ℚ)
    (hA : floatParse atext = some A) (hApos : 0 < A)
    (hT : SUPPORTED_TOKENS_LOWER.lookup tokLower = some T) (hne : T ≠ "USDT")
    (hc : qs.cache = none) (hr : up qs.calls = some r) (hr0 : r ≠ 0) :
    (handle_conversation up live render uid now qs ⟨none, d, h⟩ msg
        [⟨"get", false⟩, ⟨atext, true⟩, ⟨tokLower, false⟩]).ctx =
      ⟨some .confirm_buy, ⟨some T, some A, none⟩, h ++ ["buy_direct"]⟩ := by
  have hdet := detect_buy_single_turn atext tokLower T A hA hT hne
  have hTne : T ≠ "" := lower_lookup_ne_empty hT
  have hretry : fetch_rate_with_retry up 3 now qs =
      (some r, ⟨some (r, now + 60), qs.calls + 1⟩, now) :=
    retry_first_success up 2 now qs r hc hr
  have hA0 : A ≠ 0 := ne_of_gt hApos
  have htok : pyTruthyStr (some T) = true := by
    unfold pyTruthyStr
    simp [hTne]
  have hamt : pyTruthyQ (some A) = true := by
    unfold pyTruthyQ
    simp [hA0]
  have husdt : (T == "USDT") = false := by simp [hne]
  have hrz : ((some r).getD 0 == 0) = false := by simp [hr0]
  unfold handle_conversation
  simp only [hdet, htok, hamt, hretry, hrz, husdt]
  simp [Option.getD_some, husdt]

/-- Witness for `c2_amended` at concrete inputs (`"get 100 ton"`, rate 5). -/
theorem c2_amended_witness :
    (handle_conversation (fun _ => some 5) (.error ()) (fun _ => "") 7 0 ⟨none, 0⟩
        ⟨none, {}, []⟩ "get 100 ton"
        [⟨"get", false⟩, ⟨"100", true⟩, ⟨"ton", false⟩]).ctx =
      ⟨some .confirm_buy, ⟨some "TON", some 100, none⟩, [] ++ ["buy_direct"]⟩ :=
  c2_amended (fun _ => some 5) (.error ()) (fun _ => "") 7 0 ⟨none, 0⟩ {} [] "get 100 ton"
    "100" "ton" "TON" 100 5 (by decide) (by decide) (by decide) (by decide) rfl rfl (by decide)

/-! ## Claim C9 ("Sell 50 TON" at price 5.00) -/

/-- Claim C9: the single-turn input `"Sell 50 TON"` from `Idle` with the
quote returning 5.00 computes fiat value 50 × 5.00 − 0.15 = 249.85 (the fixed
$0.15 fee is subtracted on sells), transitions to `Confirming(Sell)` with
amount slot 50 and token slot TON, and the reply contains the amount `50`,
the token `TON` and the fiat value rendered to two decimals, `249.85`. -/
theorem c9_sell_50_ton :
    (50 : ℚ) * 5 - 15 / 100 = 24985 / 100 ∧
    fmt2 ((50 : ℚ) * 5 - 15 / 100) = "249.85" ∧
    c9run.ctx = ⟨some .confirm_sell, ⟨some "TON", some 50, none⟩, ["sell_direct"]⟩ ∧
    c9run.reply =
      "Selling 50.0 TON for $249.85 (after $0.15 fee). Send to UQCMbQomO3XD1FSt7pyfjqj2jBRzyg23myKDtCky_CedKpEH! <keyboard>" ∧
    strContains c9run.reply "50" ∧ strContains c9run.reply "TON" ∧
    strContains c9run.reply "249.85" := by
  have hfmt : fmt2 ((50 : ℚ) * 5 - 15 / 100) = "249.85" := by
    have h1 : ((50 : ℚ) * 5 - 15 / 100) * 100 + 1 / 2 = ((49971 : ℤ) : ℚ) / ((2 : ℕ) : ℚ) := by
      push_cast
      norm_num
    have h2 : (((49971 : ℤ) : ℚ) / ((2 : ℕ) : ℚ)).floor = 24985 := by
      rw [show (((49971 : ℤ) : ℚ) / ((2 : ℕ) : ℚ)).floor =
          ⌊((49971 : ℤ) : ℚ) / ((2 : ℕ) : ℚ)⌋ from rfl]
      rw [Rat.floor_intCast_div_natCast]
      decide
    unfold fmt2
    rw [h1, h2]
    decide
  have hdet : detect_intent_and_entities sellDoc = ("sell", ⟨some "TON", some (50 : ℚ), none⟩) := by
    decide
  have hreply : c9run.reply =
      "Selling 50.0 TON for $249.85 (after $0.15 fee). Send to UQCMbQomO3XD1FSt7pyfjqj2jBRzyg23myKDtCky_CedKpEH! <keyboard>" := by
    have hretry9 : fetch_rate_with_retry (fun _ => some 5) 3 0 ⟨none, 0⟩ =
        (some 5, ⟨some (5, 60), 1⟩, 0) := rfl
    unfold c9run handle_conversation
    simp only [hdet, hretry9, Option.getD_some]
    rw [hfmt]
    decide
  refine ⟨by norm_num, hfmt, by decide, hreply, ?_, ?_, ?_⟩
  · exact ⟨"Selling ",
      ".0 TON for $249.85 (after $0.15 fee). Send to UQCMbQomO3XD1FSt7pyfjqj2jBRzyg23myKDtCky_CedKpEH! <keyboard>",
      by rw [hreply]; rfl⟩
  · exact ⟨"Selling 50.0 ",
      " for $249.85 (after $0.15 fee). Send to UQCMbQomO3XD1FSt7pyfjqj2jBRzyg23myKDtCky_CedKpEH! <keyboard>",
      by rw [hreply]; rfl⟩
  · exact ⟨"Selling 50.0 TON for $",
      " (after $0.15 fee). Send to UQCMbQomO3XD1FSt7pyfjqj2jBRzyg23myKDtCky_CedKpEH! <keyboard>",
      by rw [hreply]; rfl⟩


end Gigi
